import Mathlib

/-!
Shallow embedding of the identity-resolution and credential-verification
core of the `veri-chain` auth service (`src/auth_service/`): the `users`
table rows (`models.py`), the request schemas (`schemas.py`) and the three
public operations `signup`, `login`, `wallet_login` (`main.py`).

Conventions of the embedding:
* a nullable database column is an `Option`; SQL comparison `col = v`
  is never true when the cell is NULL (`cellEq`), and comparing a column
  against a NULL literal is never true (`cellEqOpt`);
* Python truthiness of an `Optional[str]` (`if data.email:`) is
  `optTruthy`: `None` and `""` are both falsy;
* `created_at` / `updated_at` are wall-clock server defaults and are
  omitted; `reputation_score` keeps its column default `0`;
* the store is a list of rows plus the autoincrement counter; a raised
  HTTP exception rolls the transaction back, so an erring operation
  returns no new store.

`main.py` imports `get_password_hash`, `verify_password` and
`create_access_token` from `.auth`, a module whose source is not in the
repository; those three are modelled from the spec (see their doc
comments).
-/

/-- Notification-preference enum of `models.py` (`NotifType`): members
`none`, `important_only`, `standard`, `frequent`. -/
inductive NotifType where
  | none_
  | important_only
  | standard
  | frequent
deriving Repr, DecidableEq

/-- The `NotifType(value)` enum constructor of Python: yields the member
whose value is the given string, raises `ValueError` otherwise. -/
def NotifType.ofString? : String → Option NotifType
  | "none" => some .none_
  | "important_only" => some .important_only
  | "standard" => some .standard
  | "frequent" => some .frequent
  | _ => Option.none

/-- Modelled from the spec: `main.py` imports the Credential Hasher from
`.auth`, whose source file is absent from the repository. Spec §4.1: a
one-way salted adaptive transform producing an opaque `HashedCredential`.
The digest determines (and is determined by) the hashed password, which
is what `verify` consumes; one-wayness is not observable inside the
model. -/
structure HashedCredential where
  digest : String
deriving Repr, DecidableEq

/-- Modelled from the spec: `get_password_hash` of the absent `.auth`
module, spec §4.1 `hash(password) -> HashedCredential`. -/
def get_password_hash (password : String) : HashedCredential :=
  { digest := password }

/-- Modelled from the spec: `verify_password` of the absent `.auth`
module, spec §4.1 `verify(password, hashed) -> bool`: true exactly when
the password is the one that was hashed; never throws on mismatch,
returns false. -/
def verify_password (password : String) (hashed : HashedCredential) : Bool :=
  password == hashed.digest

/-- Modelled from the spec: the token produced by `create_access_token`
of the absent `.auth` module, spec §4.2: a signed token embedding the
subject claim (`data={"sub": user.email}` at the call site, so the
subject is the user's `email` cell, possibly NULL). Signature and expiry
are opaque encoding details of the bearer string and are omitted. -/
structure AccessToken where
  sub : Option String
deriving Repr, DecidableEq

/-- Modelled from the spec: `create_access_token` of the absent `.auth`
module, applied to `data={"sub": subject}`. -/
def create_access_token (subject : Option String) : AccessToken :=
  { sub := subject }

/-- A row of the `users` table (`models.py` lines 85-109). Every column
a claim touches is kept; `wallet_address` is declared
`unique=True, nullable=False` in the source, which the embedding keeps
as a cell type `Option String` so that the non-nullability is a provable
property of the reachable stores rather than a typing assumption. -/
structure User where
  id : Nat
  wallet_address : Option String
  full_name : Option String
  email : Option String
  reddit_profile : Option String
  x_profile : Option String
  farcaster_profile : Option String
  notif_type : NotifType
  interests : Option String
  reputation_score : Nat
  password_hash : Option HashedCredential
deriving Repr, DecidableEq

/-- The user store: the `users` table plus the autoincrement primary-key
counter. -/
structure Store where
  users : List User
  nextId : Nat
deriving Repr, DecidableEq

/-- The empty database the service starts from (`Base.metadata.create_all`). -/
def Store.empty : Store := { users := [], nextId := 1 }

/-- SQL `col = 'v'` on a nullable string column: NULL compares unequal
to everything. -/
def cellEq : Option String → String → Bool
  | some s, v => s == v
  | Option.none, _ => false

/-- SQL `col = :param` where the parameter itself may be NULL
(`User.email == user.email` in `signup` with an absent request email):
a NULL parameter matches no row. -/
def cellEqOpt : Option String → Option String → Bool
  | cell, some v => cellEq cell v
  | _, Option.none => false

/-- Python truthiness of an `Optional[str]`: `None` and `""` are falsy. -/
def optTruthy : Option String → Bool
  | Option.none => false
  | some s => !(s == "")

/-- Python `a or b` on `Optional[str]` values (`data.name or
data.displayName` in `wallet_login`). -/
def pyOr (a b : Option String) : Option String :=
  if optTruthy a then a else b

/-- `schemas.py` `UserCreate` (extends `UserBase`): the signup request.
`wallet_address` and `password` are required; pydantic's `EmailStr`
forbids an empty string but not absence. -/
structure UserCreate where
  wallet_address : String
  email : Option String
  full_name : Option String
  reddit_profile : Option String
  x_profile : Option String
  farcaster_profile : Option String
  notif_type : Option String
  interests : Option String
  password : String
deriving Repr, DecidableEq

/-- `schemas.py` `UserLogin`: the login request; both fields required. -/
structure UserLogin where
  email : String
  password : String
deriving Repr, DecidableEq

/-- `schemas.py` `WalletLogin`: the wallet-login request.
`walletAddress` is required, everything else optional. -/
structure WalletLogin where
  walletAddress : String
  authType : String
  email : Option String
  name : Option String
  displayName : Option String
  bio : Option String
  redditHandle : Option String
  xHandle : Option String
  interests : Option (List String)
deriving Repr, DecidableEq

/-- `schemas.py` `UserResponse` (extends `UserBase`): the serialized
user view returned by `signup` and `wallet_login`. It carries the
`UserBase` fields plus `id` and `reputation_score`; the wall-clock
`created_at`/`updated_at` are omitted from the embedding. It has no
password-hash field. -/
structure UserResponse where
  id : Nat
  wallet_address : Option String
  email : Option String
  full_name : Option String
  reddit_profile : Option String
  x_profile : Option String
  farcaster_profile : Option String
  notif_type : NotifType
  interests : Option String
  reputation_score : Nat
deriving Repr, DecidableEq

/-- Serialization of a `User` row through the `UserResponse` model
(`from_attributes = True`). -/
def toResponse (u : User) : UserResponse :=
  { id := u.id
    wallet_address := u.wallet_address
    email := u.email
    full_name := u.full_name
    reddit_profile := u.reddit_profile
    x_profile := u.x_profile
    farcaster_profile := u.farcaster_profile
    notif_type := u.notif_type
    interests := u.interests
    reputation_score := u.reputation_score }

/-- `schemas.py` `Token`: the login response. -/
structure Token where
  access_token : AccessToken
  token_type : String
deriving Repr, DecidableEq

/-- The outward error kinds of the three operations: HTTP 400 on
duplicate signup, HTTP 401 on bad credentials, HTTP 500 from the global
exception handler for any unhandled exception. -/
inductive ApiError where
  | duplicateIdentity
  | invalidCredentials
  | internalError
deriving Repr, DecidableEq

/-- `main.py` line 65: `NotifType(user.notif_type) if user.notif_type
else NotifType.standard`. A falsy (`None` or `""`) request field becomes
the default; an invalid non-empty string raises `ValueError`, which no
handler in `signup` catches, so it surfaces as an internal error. -/
def parseNotif : Option String → Except ApiError NotifType
  | Option.none => .ok .standard
  | some s =>
    if s == "" then .ok .standard
    else
      match NotifType.ofString? s with
      | some nt => .ok nt
      | Option.none => .error .internalError

/-- The row `signup` constructs (`main.py` lines 58-68): all request
fields plus the hash of the request password; defaulted columns keep
their column defaults. -/
def signupRow (req : UserCreate) (nid : Nat) (nt : NotifType) : User :=
  { id := nid
    wallet_address := some req.wallet_address
    full_name := req.full_name
    email := req.email
    reddit_profile := req.reddit_profile
    x_profile := req.x_profile
    farcaster_profile := req.farcaster_profile
    notif_type := nt
    interests := req.interests
    reputation_score := 0
    password_hash := some (get_password_hash req.password) }

/-- `main.py` `signup` (lines 47-72): reject when a row matches the
request's wallet address or (non-null) email, else hash the password and
insert a fresh row. -/
def signup (req : UserCreate) (s : Store) : Except ApiError (Store × UserResponse) :=
  if (s.users.find? fun u =>
      cellEq u.wallet_address req.wallet_address || cellEqOpt u.email req.email).isSome then
    .error .duplicateIdentity
  else
    match parseNotif req.notif_type with
    | .error e => .error e
    | .ok nt =>
      let u : User := signupRow req s.nextId nt
      .ok ({ users := s.users ++ [u], nextId := s.nextId + 1 }, toResponse u)

/-- The store as the caller sees it after a `signup` call: the new store
on success, the rolled-back (unchanged) store when the handler raised. -/
def signupStore (req : UserCreate) (s : Store) : Store :=
  match signup req s with
  | .ok (s', _) => s'
  | .error _ => s

/-- The `verify_password(user_credentials.password, user.password_hash)`
call of `login` applied to the nullable `password_hash` cell (NULL for
wallet-created rows). Spec §4.1: `verify` never throws on mismatch and
returns false, so an absent stored credential verifies nothing. -/
def verifyStored (password : String) : Option HashedCredential → Bool
  | some hc => verify_password password hc
  | Option.none => false

/-- `main.py` `login` (lines 74-87): look the row up by email; one
uniform 401 whether the row is missing or the password does not verify;
on success issue a token whose subject claim is the row's email. -/
def login (creds : UserLogin) (s : Store) : Except ApiError Token :=
  match s.users.find? (fun u => cellEq u.email creds.email) with
  | Option.none => .error .invalidCredentials
  | some u =>
    if verifyStored creds.password u.password_hash then
      .ok { access_token := create_access_token u.email, token_type := "bearer" }
    else .error .invalidCredentials

/-- Replace the first list element satisfying `p` by its image under
`f`: the ORM mutating the row that the `SELECT ... WHERE` returned. -/
def replaceFirst (p : User → Bool) (f : User → User) : List User → List User
  | [] => []
  | u :: us => if p u then f u :: us else u :: replaceFirst p f us

/-- The row `wallet_login` constructs when no row matched the wallet
address (`main.py` lines 97-103): columns not mentioned keep their
defaults (`notif_type` `standard`, `reputation_score` 0, the rest NULL). -/
def newWalletUser (req : WalletLogin) (nid : Nat) : User :=
  { id := nid
    wallet_address := some req.walletAddress
    full_name := pyOr req.name req.displayName
    email := req.email
    reddit_profile := req.redditHandle
    x_profile := req.xHandle
    farcaster_profile := Option.none
    notif_type := .standard
    interests := Option.none
    reputation_score := 0
    password_hash := Option.none }

/-- The in-place update `wallet_login` applies to a found row
(`main.py` lines 109-112): four truthiness-guarded assignments; no other
column is touched. -/
def mergeWalletUser (req : WalletLogin) (u : User) : User :=
  { u with
    email := if optTruthy req.email then req.email else u.email
    full_name := if optTruthy req.name then req.name else u.full_name
    reddit_profile := if optTruthy req.redditHandle then req.redditHandle else u.reddit_profile
    x_profile := if optTruthy req.xHandle then req.xHandle else u.x_profile }

/-- `main.py` `wallet_login` (lines 89-116): find the row by wallet
address; insert a fresh row when none exists, else merge the supplied
truthy fields into it. Never fails. -/
def wallet_login (req : WalletLogin) (s : Store) : Store × UserResponse :=
  match s.users.find? (fun u => cellEq u.wallet_address req.walletAddress) with
  | Option.none =>
    let u := newWalletUser req s.nextId
    ({ users := s.users ++ [u], nextId := s.nextId + 1 }, toResponse u)
  | some u =>
    ({ users := replaceFirst (fun v => cellEq v.wallet_address req.walletAddress)
          (mergeWalletUser req) s.users,
       nextId := s.nextId }, toResponse (mergeWalletUser req u))

/-- The `insert(User) -> User | UniqueViolation` store primitive of spec
§6: the database enforces the `unique=True` constraint on the
`wallet_address` column (`models.py` line 89) and rejects a second row
for the same address. -/
def insertUser (u : User) (s : Store) : Except Unit Store :=
  if s.users.any (fun v => cellEqOpt v.wallet_address u.wallet_address) then
    .error ()
  else .ok { users := s.users ++ [u], nextId := s.nextId + 1 }

/-- `wallet_login` with its two store accesses separated: the `SELECT`
runs against `sLookup`, the `INSERT`/`UPDATE` commits against `sCommit`
(the two differ exactly when a concurrent request committed in
between). The code has no handler around the insert, so a
`UniqueViolation` escapes to the global exception handler as an
internal error. With `sLookup = sCommit` this is `wallet_login`
(see `wallet_login_raced_sequential`). -/
def wallet_login_raced (req : WalletLogin) (sLookup sCommit : Store) :
    Except ApiError (Store × UserResponse) :=
  match sLookup.users.find? (fun u => cellEq u.wallet_address req.walletAddress) with
  | Option.none =>
    let u := newWalletUser req sCommit.nextId
    match insertUser u sCommit with
    | .ok s' => .ok (s', toResponse u)
    | .error _ => .error .internalError
  | some u =>
    .ok ({ users := replaceFirst (fun v => cellEq v.wallet_address req.walletAddress)
              (mergeWalletUser req) sCommit.users,
           nextId := sCommit.nextId }, toResponse (mergeWalletUser req u))

/-- The store states reachable from the fresh database through the three
public operations. `login` never writes, and an erring `signup` rolls
back to the unchanged (already reachable) store, so only the two
mutating outcomes appear. -/
inductive Reachable : Store → Prop
  | init : Reachable Store.empty
  | signup_ok {s s' : Store} {req : UserCreate} {r : UserResponse} :
      Reachable s → signup req s = .ok (s', r) → Reachable s'
  | wallet (req : WalletLogin) {s : Store} :
      Reachable s → Reachable (wallet_login req s).1

/-- No two list entries are related by the complement of `p`: used for
per-column uniqueness below. -/
def pairwiseB {α : Type} (p : α → α → Bool) : List α → Bool
  | [] => true
  | x :: xs => xs.all (p x) && pairwiseB p xs

/-- Two nullable cells do not hold the same non-null value. -/
def optDistinct : Option String → Option String → Bool
  | some a, some b => !(a == b)
  | _, _ => true

/-- At most one row per non-null `wallet_address` value. -/
def walletsUnique (s : Store) : Bool :=
  pairwiseB optDistinct (s.users.map (fun u => u.wallet_address))

/-- At most one row per non-null `email` value. -/
def emailsUnique (s : Store) : Bool :=
  pairwiseB optDistinct (s.users.map (fun u => u.email))

/-- Every row has a non-NULL `wallet_address` cell. -/
def allHaveWallet (s : Store) : Bool :=
  s.users.all (fun u => u.wallet_address.isSome)

/-! ### Helper lemmas -/

theorem pairwiseB_append_one {α : Type} (p : α → α → Bool) (xs : List α) (x : α) :
    pairwiseB p (xs ++ [x]) = (pairwiseB p xs && xs.all (fun y => p y x)) := by
  induction xs with
  | nil => simp [pairwiseB]
  | cons a as ih =>
    show ((as ++ [x]).all (p a) && pairwiseB p (as ++ [x]))
        = ((as.all (p a) && pairwiseB p as) && (p a x && as.all fun y => p y x))
    rw [List.all_append, ih]
    simp only [List.all_cons, List.all_nil, Bool.and_true]
    cases as.all (p a) <;> cases p a x <;> cases pairwiseB p as <;>
      cases as.all (fun y => p y x) <;> rfl

theorem replaceFirst_map {β : Type} (g : User → β) (p : User → Bool) (f : User → User)
    (hf : ∀ u, g (f u) = g u) (xs : List User) :
    (replaceFirst p f xs).map g = xs.map g := by
  induction xs with
  | nil => rfl
  | cons a as ih => by_cases hpa : p a <;> simp [replaceFirst, hpa, hf, ih]

theorem replaceFirst_all (q : User → Bool) (p : User → Bool) (f : User → User)
    (hf : ∀ u, q (f u) = q u) (xs : List User) :
    (replaceFirst p f xs).all q = xs.all q := by
  induction xs with
  | nil => rfl
  | cons a as ih => by_cases hpa : p a <;> simp [replaceFirst, hpa, hf, ih]

theorem replaceFirst_const_of_find? {p : User → Bool} {xs : List User} {u : User}
    (h : xs.find? p = some u) (f : User → User) :
    replaceFirst p f xs = replaceFirst p (fun _ => f u) xs := by
  induction xs with
  | nil => simp at h
  | cons a as ih =>
    cases hpa : p a with
    | true =>
      rw [List.find?_cons_of_pos _ hpa] at h
      cases h
      simp [replaceFirst, hpa]
    | false =>
      rw [List.find?_cons_of_neg _ (by simp [hpa])] at h
      simp [replaceFirst, hpa, ih h]

theorem signup_ok_inv {req : UserCreate} {s s' : Store} {r : UserResponse}
    (h : signup req s = .ok (s', r)) :
    (s.users.find? fun u =>
        cellEq u.wallet_address req.wallet_address || cellEqOpt u.email req.email)
      = Option.none ∧
    ∃ nt : NotifType, parseNotif req.notif_type = .ok nt ∧
      s' = { users := s.users ++ [signupRow req s.nextId nt], nextId := s.nextId + 1 } ∧
      r = toResponse (signupRow req s.nextId nt) := by
  unfold signup at h
  split at h
  · cases h
  next hfind =>
    have hnone : (s.users.find? fun u =>
        cellEq u.wallet_address req.wallet_address || cellEqOpt u.email req.email)
        = Option.none := by
      cases hfo : s.users.find? fun u =>
          cellEq u.wallet_address req.wallet_address || cellEqOpt u.email req.email with
      | none => rfl
      | some v => exact absurd (by simp [hfo]) hfind
    refine ⟨hnone, ?_⟩
    cases hpn : parseNotif req.notif_type with
    | error e => rw [hpn] at h; cases h
    | ok nt =>
      rw [hpn] at h
      simp only [Except.ok.injEq, Prod.mk.injEq] at h
      exact ⟨nt, rfl, h.1.symm, h.2.symm⟩

theorem wallet_login_raced_sequential (req : WalletLogin) (s : Store) :
    wallet_login_raced req s s = .ok (wallet_login req s) := by
  cases hfind : s.users.find? (fun u => cellEq u.wallet_address req.walletAddress) with
  | none =>
    have hnoany : s.users.any (fun v => cellEqOpt v.wallet_address (some req.walletAddress))
        = false := by
      rw [List.any_eq_false]
      intro v hv
      have := List.find?_eq_none.mp hfind v hv
      simpa [cellEqOpt] using this
    simp [wallet_login_raced, wallet_login, insertUser, hfind, newWalletUser, hnoany]
  | some u => simp [wallet_login_raced, wallet_login, hfind]

/-! ### Claim theorems -/

/-- C9: for every non-empty password `p`, `verify(p, hash(p))` is true,
and for every `p2 ≠ p`, `verify(p2, hash(p))` is false (and, the
functions being total, nothing is thrown). -/
theorem hash_verify_roundtrip (p : String) (hp : p ≠ "") :
    verify_password p (get_password_hash p) = true ∧
    ∀ p2 : String, p2 ≠ p → verify_password p2 (get_password_hash p) = false := by
  constructor
  · simp [verify_password, get_password_hash]
  · intro p2 hne
    simp [verify_password, get_password_hash, hne]

/-- C9 witness: the round trip at the password `hunter2` and the
mismatching password `letmein`. -/
theorem hash_verify_roundtrip_witness :
    verify_password "hunter2" (get_password_hash "hunter2") = true ∧
    verify_password "letmein" (get_password_hash "hunter2") = false :=
  ⟨(hash_verify_roundtrip "hunter2" (by decide)).1,
   (hash_verify_roundtrip "hunter2" (by decide)).2 "letmein" (by decide)⟩

/-- C4: `login` with an email matching no row and `login` with a
matching row whose stored credential does not verify produce the very
same `invalidCredentials` failure, so the two cases are
indistinguishable to the caller. -/
theorem login_uniform_invalid_credentials (creds : UserLogin) (s : Store)
    (h : s.users.find? (fun u => cellEq u.email creds.email) = Option.none ∨
      ∃ u : User, s.users.find? (fun u => cellEq u.email creds.email) = some u ∧
        verifyStored creds.password u.password_hash = false) :
    login creds s = .error .invalidCredentials := by
  rcases h with hnone | ⟨u, hu, hv⟩
  · simp [login, hnone]
  · simp [login, hu, hv]

/-- C4 witness: the unknown-email case on the empty store. -/
theorem login_uniform_invalid_credentials_witness :
    Store.empty.users.find?
      (fun u => cellEq u.email "ghost@x.com") = Option.none ∧
    login { email := "ghost@x.com", password := "pw" } Store.empty
      = .error .invalidCredentials :=
  ⟨rfl, login_uniform_invalid_credentials
    { email := "ghost@x.com", password := "pw" } Store.empty (Or.inl rfl)⟩

/-- C5: a wallet login whose address matches no row never fails: it
appends exactly one fresh row carrying that wallet address, seeded from
the supplied fields with `name` taking precedence over `displayName`,
persists it and returns its view. -/
theorem wallet_login_creates (req : WalletLogin) (s : Store)
    (hfind : s.users.find? (fun u => cellEq u.wallet_address req.walletAddress)
      = Option.none) :
    ∃ u : User,
      wallet_login req s
        = ({ users := s.users ++ [u], nextId := s.nextId + 1 }, toResponse u) ∧
      u.wallet_address = some req.walletAddress ∧
      u.email = req.email ∧
      u.full_name = (if optTruthy req.name then req.name else req.displayName) ∧
      u.reddit_profile = req.redditHandle ∧
      u.x_profile = req.xHandle ∧
      u.password_hash = Option.none := by
  refine ⟨newWalletUser req s.nextId, ?_, rfl, rfl, rfl, rfl, rfl, rfl⟩
  simp [wallet_login, hfind]

/-- Concrete wallet-login request for the C5 witness: a previously
unseen address with both `name` and `displayName` supplied. -/
def reqC5 : WalletLogin :=
  { walletAddress := "0xW9", authType := "wallet", email := some "w9@x.com",
    name := some "Nina", displayName := some "DN", bio := Option.none,
    redditHandle := some "ninaR", xHandle := Option.none, interests := Option.none }

/-- C5 witness: the creation at the unseen address `0xW9` on the empty
store. -/
theorem wallet_login_creates_witness :
    Store.empty.users.find?
      (fun u => cellEq u.wallet_address reqC5.walletAddress) = Option.none ∧
    ∃ u : User,
      wallet_login reqC5 Store.empty
        = ({ users := Store.empty.users ++ [u],
             nextId := Store.empty.nextId + 1 }, toResponse u) ∧
      u.wallet_address = some reqC5.walletAddress ∧
      u.email = reqC5.email ∧
      u.full_name = (if optTruthy reqC5.name then reqC5.name else reqC5.displayName) ∧
      u.reddit_profile = reqC5.redditHandle ∧
      u.x_profile = reqC5.xHandle ∧
      u.password_hash = Option.none :=
  ⟨rfl, wallet_login_creates reqC5 Store.empty rfl⟩

/-- C2: a signup whose wallet address, or whose (non-null) email,
matches an existing row fails with the duplicate-identity error and
leaves the store unchanged — in particular no stored password hash
changes. -/
theorem signup_duplicate_rejected (req : UserCreate) (s : Store) (u : User)
    (hu : u ∈ s.users)
    (hmatch : u.wallet_address = some req.wallet_address ∨
      ∃ e : String, req.email = some e ∧ u.email = some e) :
    signup req s = .error .duplicateIdentity ∧ signupStore req s = s := by
  have hp : (cellEq u.wallet_address req.wallet_address
      || cellEqOpt u.email req.email) = true := by
    rcases hmatch with h | ⟨e, he, hue⟩
    · simp [cellEq, h]
    · simp [cellEqOpt, cellEq, he, hue]
  have hfind : (s.users.find? fun v =>
      cellEq v.wallet_address req.wallet_address || cellEqOpt v.email req.email).isSome :=
    List.find?_isSome.mpr ⟨u, hu, hp⟩
  refine ⟨?_, ?_⟩
  · simp [signup, hfind]
  · simp [signupStore, signup, hfind]

/-- First signup request of the C2 witness scenario. -/
def reqC2a : UserCreate :=
  { wallet_address := "0xA1", email := some "dup@x.com", full_name := Option.none,
    reddit_profile := Option.none, x_profile := Option.none,
    farcaster_profile := Option.none, notif_type := Option.none,
    interests := Option.none, password := "pw1" }

/-- Second signup request of the C2 witness scenario: same email as
`reqC2a`, different wallet and different password. -/
def reqC2b : UserCreate :=
  { reqC2a with wallet_address := "0xA2", password := "pw2" }

/-- The row the first C2 signup creates. -/
def uC2 : User := signupRow reqC2a 1 .standard

/-- The store after the first C2 signup. -/
def sC2 : Store := signupStore reqC2a Store.empty

/-- C2 witness: registering a second time with the email of `reqC2a`
and a different password is rejected and leaves the store — hence the
first row's password hash — unchanged. -/
theorem signup_duplicate_rejected_witness :
    uC2 ∈ sC2.users ∧
    uC2.password_hash = some (get_password_hash "pw1") ∧
    signup reqC2b sC2 = .error .duplicateIdentity ∧
    signupStore reqC2b sC2 = sC2 := by
  have h := signup_duplicate_rejected reqC2b sC2 uC2 (by decide)
    (Or.inr ⟨"dup@x.com", rfl, rfl⟩)
  exact ⟨by decide, rfl, h.1, h.2⟩

/-- Wallet-login request that first creates the C3 row: address `0xW1`,
no profile fields. -/
def req0C3 : WalletLogin :=
  { walletAddress := "0xW1", authType := "wallet", email := Option.none,
    name := Option.none, displayName := Option.none, bio := Option.none,
    redditHandle := Option.none, xHandle := Option.none, interests := Option.none }

/-- The reachable one-row store holding the `0xW1` user. -/
def sC3 : Store := (wallet_login req0C3 Store.empty).1

/-- The `0xW1` row of `sC3`. -/
def uC3 : User := newWalletUser req0C3 1

/-- Second wallet-login request for `0xW1`, supplying only a non-empty
`displayName`. -/
def reqC3 : WalletLogin := { req0C3 with displayName := some "Bob" }

/-- C3 counterexample: on the reachable store `sC3`, a wallet login for
the existing address `0xW1` supplying the non-empty optional field
`displayName = "Bob"` leaves the matched row — in particular its
`full_name`, the field `displayName` corresponds to — and the whole
store untouched, contradicting the claim that every supplied non-empty
optional field of the request overwrites the corresponding User field. -/
theorem wallet_merge_ignores_displayName :
    Reachable sC3 ∧
    sC3.users.find? (fun v => cellEq v.wallet_address reqC3.walletAddress) = some uC3 ∧
    reqC3.displayName = some "Bob" ∧ optTruthy reqC3.displayName = true ∧
    wallet_login reqC3 sC3 = (sC3, toResponse uC3) ∧
    uC3.full_name = Option.none := by
  refine ⟨Reachable.wallet req0C3 Reachable.init, rfl, rfl, rfl, ?_, rfl⟩
  decide

/-- C3 (amended): the partial merge on a matched row updates exactly the
four fields `email`, `full_name` (from `name`), `reddit_profile` (from
`redditHandle`) and `x_profile` (from `xHandle`), each only when the
request value is supplied and non-empty (empty string and absence act
identically); every other column — and the request fields `displayName`,
`interests`, `bio`, `authType` — leaves the row untouched, and no other
row changes. -/
theorem wallet_login_partial_merge (req : WalletLogin) (s : Store) (u : User)
    (hfind : s.users.find? (fun v => cellEq v.wallet_address req.walletAddress)
      = some u) :
    ∃ u' : User,
      wallet_login req s
        = ({ users := replaceFirst (fun v => cellEq v.wallet_address req.walletAddress)
               (fun _ => u') s.users,
             nextId := s.nextId }, toResponse u') ∧
      u'.email = (if optTruthy req.email then req.email else u.email) ∧
      u'.full_name = (if optTruthy req.name then req.name else u.full_name) ∧
      u'.reddit_profile
        = (if optTruthy req.redditHandle then req.redditHandle else u.reddit_profile) ∧
      u'.x_profile = (if optTruthy req.xHandle then req.xHandle else u.x_profile) ∧
      u'.id = u.id ∧
      u'.wallet_address = u.wallet_address ∧
      u'.farcaster_profile = u.farcaster_profile ∧
      u'.notif_type = u.notif_type ∧
      u'.interests = u.interests ∧
      u'.reputation_score = u.reputation_score ∧
      u'.password_hash = u.password_hash := by
  refine ⟨mergeWalletUser req u, ?_, rfl, rfl, rfl, rfl, rfl, rfl, rfl, rfl, rfl, rfl, rfl⟩
  rw [show (replaceFirst (fun v => cellEq v.wallet_address req.walletAddress)
      (fun _ => mergeWalletUser req u) s.users)
    = (replaceFirst (fun v => cellEq v.wallet_address req.walletAddress)
      (mergeWalletUser req) s.users) from (replaceFirst_const_of_find? hfind _).symm]
  simp [wallet_login, hfind]

/-- Third wallet-login request for `0xW1`: a fresh email plus an empty
`xHandle` (to be treated like absence). -/
def reqC3w : WalletLogin :=
  { req0C3 with email := some "new@x.com", xHandle := some "" }

/-- C3 witness: the amended merge applied on `sC3`: the email updates,
the empty `xHandle` and the absent fields do not. -/
theorem wallet_login_partial_merge_witness :
    sC3.users.find? (fun v => cellEq v.wallet_address reqC3w.walletAddress)
      = some uC3 ∧
    ∃ u' : User,
      wallet_login reqC3w sC3
        = ({ users := replaceFirst (fun v => cellEq v.wallet_address reqC3w.walletAddress)
               (fun _ => u') sC3.users,
             nextId := sC3.nextId }, toResponse u') ∧
      u'.email = (if optTruthy reqC3w.email then reqC3w.email else uC3.email) ∧
      u'.full_name = (if optTruthy reqC3w.name then reqC3w.name else uC3.full_name) ∧
      u'.reddit_profile
        = (if optTruthy reqC3w.redditHandle then reqC3w.redditHandle else uC3.reddit_profile) ∧
      u'.x_profile = (if optTruthy reqC3w.xHandle then reqC3w.xHandle else uC3.x_profile) ∧
      u'.id = uC3.id ∧
      u'.wallet_address = uC3.wallet_address ∧
      u'.farcaster_profile = uC3.farcaster_profile ∧
      u'.notif_type = uC3.notif_type ∧
      u'.interests = uC3.interests ∧
      u'.reputation_score = uC3.reputation_score ∧
      u'.password_hash = uC3.password_hash :=
  ⟨rfl, wallet_login_partial_merge reqC3w sC3 uC3 rfl⟩

/-- Wallet-login request of the C7 race scenario: address `0xW2`. -/
def reqC7 : WalletLogin :=
  { walletAddress := "0xW2", authType := "wallet", email := Option.none,
    name := Option.none, displayName := Option.none, bio := Option.none,
    redditHandle := Option.none, xHandle := Option.none, interests := Option.none }

/-- The store a concurrent `0xW2` wallet login has already committed. -/
def sC7 : Store := (wallet_login reqC7 Store.empty).1

/-- C7: in the race where the lookup saw no `0xW2` row but a concurrent
creation committed one before the insert, the insert hits the
`wallet_address` uniqueness constraint and — the resolver having no
handler for it — the operation surfaces the violation as a fatal
internal error instead of retrying as an update. -/
theorem wallet_insert_race_is_fatal :
    Reachable sC7 ∧
    Store.empty.users.find?
      (fun u => cellEq u.wallet_address reqC7.walletAddress) = Option.none ∧
    (newWalletUser reqC7 1) ∈ sC7.users ∧
    (newWalletUser reqC7 1).wallet_address = some "0xW2" ∧
    wallet_login_raced reqC7 Store.empty sC7 = .error .internalError :=
  ⟨Reachable.wallet reqC7 Reachable.init, rfl, by decide, rfl, rfl⟩

/-- C6: after a successful signup whose request carried email `e`, a
login with `e` and the same password succeeds and returns a bearer token
whose subject is `e`. -/
theorem register_then_login_succeeds (req : UserCreate) (e : String) (s s' : Store)
    (r : UserResponse) (hemail : req.email = some e)
    (hok : signup req s = .ok (s', r)) :
    login { email := e, password := req.password } s'
      = .ok { access_token := { sub := some e }, token_type := "bearer" } := by
  obtain ⟨hfind, nt, hnt, hs', hr⟩ := signup_ok_inv hok
  subst hs'
  have hnone : s.users.find? (fun v => cellEq v.email e) = Option.none := by
    rw [List.find?_eq_none]
    intro v hv hcontra
    apply List.find?_eq_none.mp hfind v hv
    have : cellEqOpt v.email req.email = true := by rw [hemail]; exact hcontra
    simp [this]
  have hcell : cellEq (some e) e = true := by simp [cellEq]
  simp [login, List.find?_append, hnone, hcell, signupRow, verifyStored,
    verify_password, get_password_hash, hemail, create_access_token]

/-- Signup request of the C6 witness scenario. -/
def reqC6 : UserCreate :=
  { wallet_address := "0xC6", email := some "c6@x.com", full_name := Option.none,
    reddit_profile := Option.none, x_profile := Option.none,
    farcaster_profile := Option.none, notif_type := Option.none,
    interests := Option.none, password := "pw6" }

/-- The row the C6 signup creates. -/
def uC6 : User := signupRow reqC6 1 .standard

/-- The store after the C6 signup. -/
def sC6 : Store := signupStore reqC6 Store.empty

/-- C6 witness: registering `c6@x.com` on the empty store and logging in
right after with the same password yields a bearer token with subject
`c6@x.com`. -/
theorem register_then_login_succeeds_witness :
    reqC6.email = some "c6@x.com" ∧
    signup reqC6 Store.empty = .ok (sC6, toResponse uC6) ∧
    login { email := "c6@x.com", password := reqC6.password } sC6
      = .ok { access_token := { sub := some "c6@x.com" }, token_type := "bearer" } :=
  ⟨rfl, rfl, register_then_login_succeeds reqC6 "c6@x.com" Store.empty sC6
    (toResponse uC6) rfl rfl⟩

/-- C8: no response of the three operations carries the stored password
hash: the `UserResponse` view is blind to the `password_hash` column,
the views `signup` and `wallet_login` return are such views of stored
rows, and a successful `login` response is the bearer token determined
by the request email alone. -/
theorem responses_never_contain_password_hash :
    (∀ (u : User) (h : Option HashedCredential),
        toResponse { u with password_hash := h } = toResponse u) ∧
    (∀ (req : UserCreate) (s s' : Store) (r : UserResponse),
        signup req s = .ok (s', r) → ∃ u ∈ s'.users, r = toResponse u) ∧
    (∀ (req : WalletLogin) (s : Store),
        ∃ u : User, (wallet_login req s).2 = toResponse u) ∧
    (∀ (creds : UserLogin) (s : Store) (t : Token),
        login creds s = .ok t →
        t = { access_token := { sub := some creds.email }, token_type := "bearer" }) := by
  refine ⟨fun u h => rfl, ?_, ?_, ?_⟩
  · intro req s s' r hok
    obtain ⟨-, nt, -, hs', hr⟩ := signup_ok_inv hok
    subst hs'
    exact ⟨signupRow req s.nextId nt, by simp, hr⟩
  · intro req s
    cases hfind : s.users.find? (fun u => cellEq u.wallet_address req.walletAddress) with
    | none => exact ⟨newWalletUser req s.nextId, by simp [wallet_login, hfind]⟩
    | some u => exact ⟨mergeWalletUser req u, by simp [wallet_login, hfind]⟩
  · intro creds s t hok
    unfold login at hok
    cases hfind : s.users.find? (fun u => cellEq u.email creds.email) with
    | none =>
      rw [hfind] at hok
      exact Except.noConfusion
        (show (Except.error ApiError.invalidCredentials : Except ApiError Token)
          = Except.ok t from hok)
    | some u =>
      rw [hfind] at hok
      have hok2 : (if verifyStored creds.password u.password_hash = true then
          Except.ok { access_token := create_access_token u.email, token_type := "bearer" }
        else Except.error ApiError.invalidCredentials) = Except.ok t := hok
      cases hv : verifyStored creds.password u.password_hash with
      | false =>
        rw [hv] at hok2
        exact Except.noConfusion
          (show (Except.error ApiError.invalidCredentials : Except ApiError Token)
            = Except.ok t from hok2)
      | true =>
        rw [hv] at hok2
        have hok' : Except.ok (ε := ApiError)
            { access_token := create_access_token u.email, token_type := "bearer" }
            = Except.ok t := hok2
        have hpred := List.find?_some hfind
        have hue : u.email = some creds.email := by
          cases hu : u.email with
          | none => rw [hu] at hpred; cases hpred
          | some a =>
            rw [hu] at hpred
            simp only [cellEq, beq_iff_eq] at hpred
            rw [hpred]
        cases hok'
        simp [create_access_token, hue]

/-- Signup request of the C8 witness scenario. -/
def reqC8 : UserCreate :=
  { wallet_address := "0xC8", email := some "c8@x.com", full_name := Option.none,
    reddit_profile := Option.none, x_profile := Option.none,
    farcaster_profile := Option.none, notif_type := Option.none,
    interests := Option.none, password := "pw8" }

/-- The row the C8 signup creates. -/
def uC8 : User := signupRow reqC8 1 .standard

/-- The store after the C8 signup. -/
def sC8 : Store := signupStore reqC8 Store.empty

/-- Wallet-login request of the C8 witness scenario. -/
def reqC8w : WalletLogin :=
  { walletAddress := "0xC8w", authType := "wallet", email := Option.none,
    name := Option.none, displayName := Option.none, bio := Option.none,
    redditHandle := Option.none, xHandle := Option.none, interests := Option.none }

/-- Login request of the C8 witness scenario. -/
def credsC8 : UserLogin := { email := "c8@x.com", password := "pw8" }

/-- The token that login returns in the C8 witness scenario. -/
def tokC8 : Token :=
  { access_token := { sub := some "c8@x.com" }, token_type := "bearer" }

/-- C8 witness: the four components at concrete inputs — the view is
hash-blind on the C8 row, the signup and wallet-login responses are
views of stored rows, and the successful login response is the token of
the request email. -/
theorem responses_never_contain_password_hash_witness :
    toResponse { uC8 with password_hash := Option.none } = toResponse uC8 ∧
    (∃ u ∈ sC8.users, toResponse uC8 = toResponse u) ∧
    (∃ u : User, (wallet_login reqC8w Store.empty).2 = toResponse u) ∧
    tokC8 = { access_token := { sub := some credsC8.email }, token_type := "bearer" } :=
  ⟨responses_never_contain_password_hash.1 uC8 Option.none,
   responses_never_contain_password_hash.2.1 reqC8 Store.empty sC8 (toResponse uC8) rfl,
   responses_never_contain_password_hash.2.2.1 reqC8w Store.empty,
   responses_never_contain_password_hash.2.2.2 credsC8 sC8 tokC8 rfl⟩

/-- Signup request of the C1 scenario: wallet `0xW1`, email `a@b.com`. -/
def req1C1 : UserCreate :=
  { wallet_address := "0xW1", email := some "a@b.com", full_name := Option.none,
    reddit_profile := Option.none, x_profile := Option.none,
    farcaster_profile := Option.none, notif_type := some "standard",
    interests := Option.none, password := "pw1" }

/-- Wallet-login request of the C1 scenario: the unseen wallet `0xW2`
carrying the already-registered email `a@b.com`. -/
def req2C1 : WalletLogin :=
  { walletAddress := "0xW2", authType := "wallet", email := some "a@b.com",
    name := Option.none, displayName := Option.none, bio := Option.none,
    redditHandle := Option.none, xHandle := Option.none, interests := Option.none }

/-- The row the C1 signup creates. -/
def uAC1 : User := signupRow req1C1 1 .standard

/-- The store after the C1 signup. -/
def s1C1 : Store := signupStore req1C1 Store.empty

/-- The store after the C1 wallet login. -/
def s2C1 : Store := (wallet_login req2C1 s1C1).1

/-- The row the C1 wallet login creates. -/
def uBC1 : User := newWalletUser req2C1 2

/-- C1 counterexample: the store reached by registering
`(0xW1, a@b.com)` and then wallet-logging-in the unseen wallet `0xW2`
with `email = a@b.com` holds two distinct rows carrying the same
non-null email, so email uniqueness is not an invariant of the public
operations. -/
theorem email_uniqueness_fails :
    Reachable s2C1 ∧ emailsUnique s2C1 = false ∧
    uAC1 ∈ s2C1.users ∧ uBC1 ∈ s2C1.users ∧ uAC1 ≠ uBC1 ∧
    uAC1.email = some "a@b.com" ∧ uBC1.email = some "a@b.com" := by
  refine ⟨?_, by decide, by decide, by decide, by decide, rfl, rfl⟩
  exact Reachable.wallet req2C1 (Reachable.signup_ok Reachable.init
    (rfl : signup req1C1 Store.empty = .ok (s1C1, toResponse uAC1)))

/-- C1 (amended): every reachable store has at most one row per
non-null `wallet_address` value, and this is preserved by all three
public operations; the analogous email statement fails (see the
counterexample). -/
theorem wallet_uniqueness_invariant (s : Store) (h : Reachable s) :
    walletsUnique s = true := by
  induction h with
  | init => rfl
  | @signup_ok s0 s' req r hs hok ih =>
    obtain ⟨hfind, nt, -, hs', -⟩ := signup_ok_inv hok
    subst hs'
    show pairwiseB optDistinct
      ((s0.users ++ [signupRow req s0.nextId nt]).map (fun u => u.wallet_address)) = true
    rw [List.map_append]
    show pairwiseB optDistinct
      (s0.users.map (fun u => u.wallet_address) ++ [some req.wallet_address]) = true
    rw [pairwiseB_append_one, Bool.and_eq_true]
    refine ⟨ih, ?_⟩
    rw [List.all_eq_true]
    intro c hc
    obtain ⟨v, hv, rfl⟩ := List.mem_map.mp hc
    have h2 := List.find?_eq_none.mp hfind v hv
    simp only [Bool.or_eq_true, not_or] at h2
    cases hw : v.wallet_address with
    | none => rfl
    | some a =>
      have h3 := h2.1
      rw [hw] at h3
      simp only [cellEq, beq_iff_eq] at h3
      simp [optDistinct, h3]
  | @wallet req s0 hs ih =>
    cases hfind : s0.users.find? (fun u => cellEq u.wallet_address req.walletAddress) with
    | none =>
      show walletsUnique (wallet_login req s0).1 = true
      simp only [wallet_login, hfind]
      show pairwiseB optDistinct
        ((s0.users ++ [newWalletUser req s0.nextId]).map (fun u => u.wallet_address)) = true
      rw [List.map_append]
      show pairwiseB optDistinct
        (s0.users.map (fun u => u.wallet_address) ++ [some req.walletAddress]) = true
      rw [pairwiseB_append_one, Bool.and_eq_true]
      refine ⟨ih, ?_⟩
      rw [List.all_eq_true]
      intro c hc
      obtain ⟨v, hv, rfl⟩ := List.mem_map.mp hc
      have h2 := List.find?_eq_none.mp hfind v hv
      cases hw : v.wallet_address with
      | none => rfl
      | some a =>
        rw [hw] at h2
        simp only [cellEq, beq_iff_eq] at h2
        simp [optDistinct, h2]
    | some u =>
      show walletsUnique (wallet_login req s0).1 = true
      simp only [wallet_login, hfind]
      show pairwiseB optDistinct
        ((replaceFirst (fun v => cellEq v.wallet_address req.walletAddress)
          (mergeWalletUser req) s0.users).map (fun u => u.wallet_address)) = true
      rw [replaceFirst_map (fun v => v.wallet_address)
        (fun v => cellEq v.wallet_address req.walletAddress)
        (mergeWalletUser req) (fun v => rfl) s0.users]
      exact ih

/-- C1 witness: the amended invariant at the concrete reachable store
of the counterexample scenario. -/
theorem wallet_uniqueness_invariant_witness :
    Reachable s2C1 ∧ walletsUnique s2C1 = true := by
  have h : Reachable s2C1 :=
    Reachable.wallet req2C1 (Reachable.signup_ok Reachable.init
      (rfl : signup req1C1 Store.empty = .ok (s1C1, toResponse uAC1)))
  exact ⟨h, wallet_uniqueness_invariant s2C1 h⟩

/-- C10: every row of every reachable store has a non-NULL
`wallet_address`: both request schemas require a wallet address
(`UserCreate.wallet_address` and `WalletLogin.walletAddress` are
non-optional), every created row stores it, and no update clears it —
so an email-only user can never exist, matching the non-nullable column
declaration. -/
theorem users_always_have_wallet (s : Store) (h : Reachable s) :
    allHaveWallet s = true := by
  induction h with
  | init => rfl
  | @signup_ok s0 s' req r hs hok ih =>
    obtain ⟨-, nt, -, hs', -⟩ := signup_ok_inv hok
    subst hs'
    show (s0.users ++ [signupRow req s0.nextId nt]).all
      (fun u => u.wallet_address.isSome) = true
    rw [List.all_append, Bool.and_eq_true]
    exact ⟨ih, rfl⟩
  | @wallet req s0 hs ih =>
    cases hfind : s0.users.find? (fun u => cellEq u.wallet_address req.walletAddress) with
    | none =>
      show allHaveWallet (wallet_login req s0).1 = true
      simp only [wallet_login, hfind]
      show (s0.users ++ [newWalletUser req s0.nextId]).all
        (fun u => u.wallet_address.isSome) = true
      rw [List.all_append, Bool.and_eq_true]
      exact ⟨ih, rfl⟩
    | some u =>
      show allHaveWallet (wallet_login req s0).1 = true
      simp only [wallet_login, hfind]
      show (replaceFirst (fun v => cellEq v.wallet_address req.walletAddress)
        (mergeWalletUser req) s0.users).all (fun u => u.wallet_address.isSome) = true
      rw [replaceFirst_all (fun u => u.wallet_address.isSome)
        (fun v => cellEq v.wallet_address req.walletAddress)
        (mergeWalletUser req) (fun v => rfl) s0.users]
      exact ih

/-- C10 witness: the non-null-wallet invariant at the concrete reachable
store of the C7 scenario. -/
theorem users_always_have_wallet_witness :
    Reachable sC7 ∧ allHaveWallet sC7 = true := by
  have h : Reachable sC7 := Reachable.wallet reqC7 Reachable.init
  exact ⟨h, users_always_have_wallet sC7 h⟩
